import Mathlib

/-!
Shallow embedding of the `tmail` Fastmail masked-email client
(src/lib.rs, src/main.rs).

The network layer (reqwest) is abstracted: each client operation is
modelled as a pure function producing the JMAP request it sends and
interpreting an abstract HTTP exchange outcome into the same
`Result`-shaped value as the Rust code.  JSON bodies are modelled by an
inductive `Json` tree; serde decoding of the typed structs is translated
field by field from the `#[derive(Deserialize)]` semantics of lib.rs.
-/

namespace Tmail

/-- Model of a `serde_json::Value` tree.  Objects are association lists
with unique keys (the state after parsing); numbers are `Int`, which is
enough for every value this client touches. -/
inductive Json where
  | null : Json
  | bool : Bool → Json
  | num : Int → Json
  | str : String → Json
  | arr : List Json → Json
  | obj : List (String × Json) → Json

/-- Model of `serde_json::Value::get(key)`: key lookup on an object, `None` on any
other variant. -/
def Json.get (j : Json) (key : String) : Option Json :=
  match j with
  | .obj fields => (fields.find? (fun kv => kv.1 == key)).map (fun kv => kv.2)
  | _ => none

mutual
/-- Model of `format!("{:?}", value)` on a `serde_json::Value` (its Debug
rendering); string escaping inside the rendering is elided. -/
def Json.debugRepr : Json → String
  | .null => "Null"
  | .bool true => "Bool(true)"
  | .bool false => "Bool(false)"
  | .num n => "Number(" ++ toString n ++ ")"
  | .str s => "String(\"" ++ s ++ "\")"
  | .arr xs => "Array [" ++ Json.debugReprList xs ++ "]"
  | .obj fs => "Object \x7b" ++ Json.debugReprFields fs ++ "\x7d"

def Json.debugReprList : List Json → String
  | [] => ""
  | [x] => Json.debugRepr x
  | x :: xs => Json.debugRepr x ++ ", " ++ Json.debugReprList xs

def Json.debugReprFields : List (String × Json) → String
  | [] => ""
  | [kv] => "\"" ++ kv.1 ++ "\": " ++ Json.debugRepr kv.2
  | kv :: kvs => "\"" ++ kv.1 ++ "\": " ++ Json.debugRepr kv.2 ++ ", " ++ Json.debugReprFields kvs
end

/-- lib.rs constants. -/
def FASTMAIL_SESSION_URL : String := "https://api.fastmail.com/jmap/session"

def FASTMAIL_API_URL : String := "https://api.fastmail.com/jmap/api/"

def JMAP_CORE_CAPABILITY : String := "urn:ietf:params:jmap:core"

def MASKED_EMAIL_CAPABILITY : String := "https://www.fastmail.com/dev/maskedemail"

/-- The `enum FastmailError` of lib.rs. -/
inductive FastmailError where
  | Http : String → FastmailError
  | Auth : Nat → String → FastmailError
  | Api : String → FastmailError
  | Parse : String → FastmailError
  | MissingCapability : FastmailError
  | NotFound : String → FastmailError
deriving DecidableEq, Repr

/-- The `struct MaskedEmail` of lib.rs (serde field renames applied on decode). -/
structure MaskedEmail where
  id : Option String
  email : String
  state : Option String
  for_domain : Option String
  description : Option String
  created_at : Option String
  last_message_at : Option String
deriving DecidableEq, Repr

/-- serde decode of a required `String` field. -/
def Json.getStrField (j : Json) (key : String) : Except String String :=
  match j.get key with
  | some (.str s) => .ok s
  | some _ => .error ("invalid type for field " ++ key)
  | none => .error ("missing field " ++ key)

/-- serde decode of an `Option<String>` field: missing or `null` is `none`. -/
def Json.getOptStrField (j : Json) (key : String) : Except String (Option String) :=
  match j.get key with
  | none => .ok none
  | some .null => .ok none
  | some (.str s) => .ok (some s)
  | some _ => .error ("invalid type for field " ++ key)

/-- serde `Deserialize` for `MaskedEmail`: only `email` is required; every
other field is optional (`Option<String>`, defaulting to `None` when the
key is absent); unknown keys are ignored. -/
def MaskedEmail.fromJson (j : Json) : Except String MaskedEmail :=
  match j with
  | .obj _ => do
    let id ← j.getOptStrField "id"
    let email ← j.getStrField "email"
    let state ← j.getOptStrField "state"
    let for_domain ← j.getOptStrField "forDomain"
    let description ← j.getOptStrField "description"
    let created_at ← j.getOptStrField "createdAt"
    let last_message_at ← j.getOptStrField "lastMessageAt"
    .ok { id := id, email := email, state := state, for_domain := for_domain,
          description := description, created_at := created_at,
          last_message_at := last_message_at }
  | _ => .error "invalid type: expected struct MaskedEmail"

/-- Sequential decode of a JSON array element list (serde `Vec<T>`):
left to right, first failure aborts, order preserved. -/
def decodeAll {α : Type} (f : Json → Except String α) : List Json → Except String (List α)
  | [] => .ok []
  | x :: xs =>
    match f x with
    | .error e => .error e
    | .ok a =>
      match decodeAll f xs with
      | .error e => .error e
      | .ok rest => .ok (a :: rest)

/-- serde `Deserialize` for `Vec<MaskedEmail>` from a `serde_json::Value`. -/
def decodeMaskedEmails (j : Json) : Except String (List MaskedEmail) :=
  match j with
  | .arr xs => decodeAll MaskedEmail.fromJson xs
  | _ => .error "invalid type: expected a sequence"

/-- The `struct SessionResponse` of lib.rs: the `primaryAccounts`
capability-to-account map, kept as an association list. -/
structure SessionResponse where
  primary_accounts : List (String × String)
deriving DecidableEq, Repr

/-- serde decode of one `primaryAccounts` entry value (must be a string). -/
def decodeAccountEntry (kv : String × Json) : Except String (String × String) :=
  match kv.2 with
  | .str v => .ok (kv.1, v)
  | _ => .error "invalid type for primaryAccounts entry"

/-- serde `Deserialize` for `SessionResponse`. -/
def SessionResponse.fromJson (j : Json) : Except String SessionResponse :=
  match j.get "primaryAccounts" with
  | some (.obj kvs) => do
    let entries ← entriesFromJson kvs
    .ok ⟨entries⟩
  | some _ => .error "invalid type for field primaryAccounts"
  | none => .error "missing field primaryAccounts"
where
  entriesFromJson : List (String × Json) → Except String (List (String × String))
    | [] => .ok []
    | kv :: kvs => do
      let e ← decodeAccountEntry kv
      let rest ← entriesFromJson kvs
      .ok (e :: rest)

/-- The `struct JmapRequest` of lib.rs: the request envelope.  The `using`
capability list and the `(methodName, arguments, callId)` call triples. -/
structure JmapRequest where
  usingCaps : List String
  method_calls : List (String × Json × String)

/-- The `struct JmapResponse` of lib.rs: `(methodName, result, callId)` triples. -/
structure JmapResponse where
  method_responses : List (String × Json × String)

/-- serde decode of one `methodResponses` entry, a 3-element JSON array
`[methodName, result, callId]` (the tuple `(String, Value, String)`). -/
def decodeMethodResponse (j : Json) : Except String (String × Json × String) :=
  match j with
  | .arr [.str m, v, .str c] => .ok (m, v, c)
  | _ => .error "invalid type: expected a method response triple"

/-- serde `Deserialize` for `JmapResponse`. -/
def JmapResponse.fromJson (j : Json) : Except String JmapResponse :=
  match j.get "methodResponses" with
  | some (.arr xs) => do
    let entries ← decodeAll decodeMethodResponse xs
    .ok ⟨entries⟩
  | some _ => .error "invalid type for field methodResponses"
  | none => .error "missing field methodResponses"

/-- Debug rendering of one `methodResponses` triple (derived tuple Debug). -/
def methodResponseDebugRepr (e : String × Json × String) : String :=
  "(\"" ++ e.1 ++ "\", " ++ Json.debugRepr e.2.1 ++ ", \"" ++ e.2.2 ++ "\")"

def methodResponsesDebugRepr : List (String × Json × String) → String
  | [] => ""
  | [e] => methodResponseDebugRepr e
  | e :: es => methodResponseDebugRepr e ++ ", " ++ methodResponsesDebugRepr es

/-- Model of `format!("{:?}", jmap)` on a `JmapResponse` (derived Debug). -/
def JmapResponse.debugRepr (j : JmapResponse) : String :=
  "JmapResponse \x7b method_responses: [" ++ methodResponsesDebugRepr j.method_responses ++ "] \x7d"

/-- One HTTP exchange as the client observes it: either `send()` failed, or
a response arrived carrying a status code, the body text (`None` when
`response.text()` itself fails, collapsed to `""` by `unwrap_or_default`),
and the result of parsing the body as JSON. -/
inductive HttpOutcome where
  | sendErr : String → HttpOutcome
  | resp : Nat → Option String → Except String Json → HttpOutcome

/-- Model of `reqwest::StatusCode::is_success()`: status in `200..=299`. -/
def statusIsSuccess (status : Nat) : Bool :=
  200 ≤ status && status ≤ 299

/-- body text as retrieved by `response.text().unwrap_or_default()`. -/
def bodyText (text : Option String) : String := text.getD ""

/-- Shared transport handling of every operation in lib.rs: a failed send
is `Http`; a non-2xx status is `Auth(status, body)`; a body that fails to
parse or decode is `Parse`; otherwise the decoded body is handed on. -/
def handleResponse {α : Type} (decode : Json → Except String α)
    (out : HttpOutcome) : Except FastmailError α :=
  match out with
  | .sendErr e => .error (.Http e)
  | .resp status text json =>
    if statusIsSuccess status then
      match json with
      | .error e => .error (.Parse e)
      | .ok body =>
        match decode body with
        | .error e => .error (.Parse e)
        | .ok a => .ok a
    else .error (.Auth status (bodyText text))

/-- Response handling of `FastmailClient::get_session` (lib.rs): response handling of the
authenticated GET against the session endpoint. -/
def get_session (out : HttpOutcome) : Except FastmailError SessionResponse :=
  handleResponse SessionResponse.fromJson out

/-- The `FastmailClient::get_account_id` chain of lib.rs. -/
def get_account_id (out : HttpOutcome) : Except FastmailError String :=
  match get_session out with
  | .error e => .error e
  | .ok session =>
    match (session.primary_accounts.find? (fun kv => kv.1 == MASKED_EMAIL_CAPABILITY)).map (fun kv => kv.2) with
    | some account => .ok account
    | none => .error .MissingCapability

/-- The request envelope built by `create_masked_email` (lib.rs 116-132):
`description.unwrap_or_default()` and `for_domain.unwrap_or_default()`
turn an absent argument into the empty string. -/
def create_request (account_id : String) (description : Option String)
    (for_domain : Option String) : JmapRequest :=
  { usingCaps := [JMAP_CORE_CAPABILITY, MASKED_EMAIL_CAPABILITY],
    method_calls := [("MaskedEmail/set",
      Json.obj [("accountId", .str account_id),
        ("create", .obj [("new", .obj [
          ("state", .str "enabled"),
          ("description", .str (description.getD "")),
          ("forDomain", .str (for_domain.getD ""))])])],
      "0")] }

/-- Interpretation of a decoded create response (lib.rs 152-169): first
method response with method `MaskedEmail/set`; a `created.new` entry is
decoded as the `MaskedEmail`; otherwise a `notCreated` section is an
`Api` error with its Debug rendering; anything else is the
`Unexpected response` `Api` error. -/
def create_interpret (jmap : JmapResponse) : Except FastmailError MaskedEmail :=
  match jmap.method_responses.head? with
  | some (method, result, _) =>
    if method == "MaskedEmail/set" then
      match (result.get "created").bind (fun created => created.get "new") with
      | some new_email => Except.mapError FastmailError.Parse (MaskedEmail.fromJson new_email)
      | none =>
        match result.get "notCreated" with
        | some not_created => .error (.Api (Json.debugRepr not_created))
        | none => .error (.Api ("Unexpected response: " ++ jmap.debugRepr))
    else .error (.Api ("Unexpected response: " ++ jmap.debugRepr))
  | none => .error (.Api ("Unexpected response: " ++ jmap.debugRepr))

/-- The `FastmailClient::create_masked_email` operation (lib.rs): the request it POSTs
and the result of the exchange. -/
def create_masked_email (account_id : String) (description : Option String)
    (for_domain : Option String) (out : HttpOutcome) :
    JmapRequest × Except FastmailError MaskedEmail :=
  (create_request account_id description for_domain,
   match handleResponse JmapResponse.fromJson out with
   | .error e => .error e
   | .ok jmap => create_interpret jmap)

/-- The request envelope built by `list_masked_emails` (lib.rs 173-183):
a `MaskedEmail/get` with a `null` `ids` filter. -/
def list_request (account_id : String) : JmapRequest :=
  { usingCaps := [JMAP_CORE_CAPABILITY, MASKED_EMAIL_CAPABILITY],
    method_calls := [("MaskedEmail/get",
      Json.obj [("accountId", .str account_id), ("ids", .null)],
      "0")] }

/-- Interpretation of a decoded list response (lib.rs 203-215): the
`list` section of the first `MaskedEmail/get` response is decoded
verbatim as `Vec<MaskedEmail>`. -/
def list_interpret (jmap : JmapResponse) : Except FastmailError (List MaskedEmail) :=
  match jmap.method_responses.head? with
  | some (method, result, _) =>
    if method == "MaskedEmail/get" then
      match result.get "list" with
      | some l => Except.mapError FastmailError.Parse (decodeMaskedEmails l)
      | none => .error (.Api ("Unexpected response: " ++ jmap.debugRepr))
    else .error (.Api ("Unexpected response: " ++ jmap.debugRepr))
  | none => .error (.Api ("Unexpected response: " ++ jmap.debugRepr))

/-- The `FastmailClient::list_masked_emails` operation (lib.rs). -/
def list_masked_emails (account_id : String) (out : HttpOutcome) :
    JmapRequest × Except FastmailError (List MaskedEmail) :=
  (list_request account_id,
   match handleResponse JmapResponse.fromJson out with
   | .error e => .error e
   | .ok jmap => list_interpret jmap)

/-- The request envelope built by `delete_masked_email` (lib.rs 219-233):
an update setting `state = "disabled"` for the given ID. -/
def delete_request (account_id : String) (id : String) : JmapRequest :=
  { usingCaps := [JMAP_CORE_CAPABILITY, MASKED_EMAIL_CAPABILITY],
    method_calls := [("MaskedEmail/set",
      Json.obj [("accountId", .str account_id),
        ("update", .obj [(id, .obj [("state", .str "disabled")])])],
      "0")] }

/-- Interpretation of a decoded update response in `delete_masked_email`
(lib.rs 253-267): success exactly when the ID is a key of the `updated`
section (the value is never inspected); otherwise a `notUpdated` section
is an `Api` error; anything else the `Unexpected response` `Api` error. -/
def delete_interpret (id : String) (jmap : JmapResponse) : Except FastmailError Unit :=
  match jmap.method_responses.head? with
  | some (method, result, _) =>
    if method == "MaskedEmail/set" then
      if ((result.get "updated").bind (fun u => u.get id)).isSome then .ok ()
      else
        match result.get "notUpdated" with
        | some not_updated => .error (.Api (Json.debugRepr not_updated))
        | none => .error (.Api ("Unexpected response: " ++ jmap.debugRepr))
    else .error (.Api ("Unexpected response: " ++ jmap.debugRepr))
  | none => .error (.Api ("Unexpected response: " ++ jmap.debugRepr))

/-- The `FastmailClient::delete_masked_email` operation (lib.rs), the archive. -/
def delete_masked_email (account_id : String) (id : String) (out : HttpOutcome) :
    JmapRequest × Except FastmailError Unit :=
  (delete_request account_id id,
   match handleResponse JmapResponse.fromJson out with
   | .error e => .error e
   | .ok jmap => delete_interpret id jmap)

/-- The request envelope built by `destroy_masked_email` (lib.rs 271-285):
an update setting `state = "deleted"` for the given ID. -/
def destroy_request (account_id : String) (id : String) : JmapRequest :=
  { usingCaps := [JMAP_CORE_CAPABILITY, MASKED_EMAIL_CAPABILITY],
    method_calls := [("MaskedEmail/set",
      Json.obj [("accountId", .str account_id),
        ("update", .obj [(id, .obj [("state", .str "deleted")])])],
      "0")] }

/-- Interpretation of a decoded update response in `destroy_masked_email`
(lib.rs 305-319); the body is line for line that of `delete_interpret`. -/
def destroy_interpret (id : String) (jmap : JmapResponse) : Except FastmailError Unit :=
  match jmap.method_responses.head? with
  | some (method, result, _) =>
    if method == "MaskedEmail/set" then
      if ((result.get "updated").bind (fun u => u.get id)).isSome then .ok ()
      else
        match result.get "notUpdated" with
        | some not_updated => .error (.Api (Json.debugRepr not_updated))
        | none => .error (.Api ("Unexpected response: " ++ jmap.debugRepr))
    else .error (.Api ("Unexpected response: " ++ jmap.debugRepr))
  | none => .error (.Api ("Unexpected response: " ++ jmap.debugRepr))

/-- The `FastmailClient::destroy_masked_email` operation (lib.rs). -/
def destroy_masked_email (account_id : String) (id : String) (out : HttpOutcome) :
    JmapRequest × Except FastmailError Unit :=
  (destroy_request account_id id,
   match handleResponse JmapResponse.fromJson out with
   | .error e => .error e
   | .ok jmap => destroy_interpret id jmap)

/-- A generic update-state request envelope, named after the spec wording
for archive/destroy ("identical mechanics, but sets `state = ...`"); used
only to compare the two builders of the source. -/
def set_state_request (account_id : String) (id : String) (state : String) : JmapRequest :=
  { usingCaps := [JMAP_CORE_CAPABILITY, MASKED_EMAIL_CAPABILITY],
    method_calls := [("MaskedEmail/set",
      Json.obj [("accountId", .str account_id),
        ("update", .obj [(id, .obj [("state", .str state)])])],
      "0")] }

/-- Outcome of the `delete` CLI command of main.rs, with the process
exits made explicit.  `notFound` is the `Error: Masked email <addr> not
found.` message printed before `exit(1)`; it carries the queried address. -/
inductive DeleteOutcome where
  | missingEmailArg : DeleteOutcome
  | listFailed : FastmailError → DeleteOutcome
  | notFound : String → DeleteOutcome
  | missingId : DeleteOutcome
  | archiveFailed : FastmailError → DeleteOutcome
  | archived : String → DeleteOutcome
deriving DecidableEq, Repr

/-- The `delete` command of main.rs (lines 188-237) with the two client
calls abstracted as the results they return: lists, scans for an entry
whose `email` field equals the argument, then archives by its ID. -/
def cliDelete (email : Option String)
    (listResult : Except FastmailError (List MaskedEmail))
    (archiveResult : String → Except FastmailError Unit) : DeleteOutcome :=
  match email with
  | none => .missingEmailArg
  | some email =>
    match listResult with
    | .error e => .listFailed e
    | .ok emails =>
      match emails.find? (fun e => e.email == email) with
      | none => .notFound email
      | some masked =>
        match masked.id with
        | none => .missingId
        | some id =>
          match archiveResult id with
          | .ok _ => .archived email
          | .error e => .archiveFailed e

/-- The operation `findByAddress` as the spec words it (§4.4): `list` composed with a
linear scan on the `email` field, an absent address failing with
`ResourceNotFound` carrying the queried address.  Stated only to compare
with what the code does; the code never builds this error. -/
def findByAddress_specModel (emails : List MaskedEmail) (address : String) :
    Except FastmailError MaskedEmail :=
  match emails.find? (fun e => e.email == address) with
  | some m => .ok m
  | none => .error (.NotFound address)

/-- A one-entry listing used as a concrete input. -/
def sampleListing : List MaskedEmail :=
  [{ id := some "i1", email := "present@x.com", state := some "enabled",
     for_domain := none, description := none, created_at := none,
     last_message_at := none }]

/-- A stub archive step that always succeeds, for exercising `cliDelete`. -/
def alwaysOkArchive : String → Except FastmailError Unit := fun _ => .ok ()

/-- A set result acknowledging the update of ID `m1`. -/
def sampleUpdateResult : Json := Json.obj [("updated", Json.obj [("m1", Json.null)])]

def sampleUpdateResponse : JmapResponse := ⟨[("MaskedEmail/set", sampleUpdateResult, "0")]⟩

/-- A get result with an empty `list` section. -/
def sampleListResult : Json := Json.obj [("list", Json.arr [])]

def sampleListResponse : JmapResponse := ⟨[("MaskedEmail/get", sampleListResult, "0")]⟩

/-- A create result carrying both its success section (`created.new`) and
its failure section (`notCreated`), and nothing else. -/
def sampleCreateConflictResult : Json :=
  Json.obj [("created", Json.obj [("new", Json.obj [("email", Json.str "a@b.c")])]),
            ("notCreated", Json.obj [])]

def sampleCreateConflictResponse : JmapResponse :=
  ⟨[("MaskedEmail/set", sampleCreateConflictResult, "0")]⟩

/-- An update result carrying both its success section (`updated` keyed by
the ID) and its failure section (`notUpdated`), and nothing else. -/
def sampleUpdateConflictResult : Json :=
  Json.obj [("updated", Json.obj [("x1", Json.null)]), ("notUpdated", Json.obj [])]

def sampleUpdateConflictResponse : JmapResponse :=
  ⟨[("MaskedEmail/set", sampleUpdateConflictResult, "0")]⟩

/-- The created entity of the spec's create example scenario (§8). -/
def sampleCreatedNew : Json :=
  Json.obj [("id", .str "abc"), ("email", .str "xyz@mask.example"), ("state", .str "enabled")]

def sampleCreateResult : Json := Json.obj [("created", Json.obj [("new", sampleCreatedNew)])]

def sampleCreateResponse : JmapResponse := ⟨[("MaskedEmail/set", sampleCreateResult, "0")]⟩

/-- A successful `decodeAll` run yields one output per input, in order:
element `i` of the output is the decode of element `i` of the input. -/
theorem decodeAll_ok_spec {α : Type} (f : Json → Except String α) :
    ∀ (xs : List Json) (ms : List α), decodeAll f xs = .ok ms →
      ms.length = xs.length ∧
      ∀ (i : Nat) (h1 : i < xs.length) (h2 : i < ms.length),
        f (xs.get ⟨i, h1⟩) = .ok (ms.get ⟨i, h2⟩) := by
  intro xs
  induction xs with
  | nil =>
    intro ms hms
    simp only [decodeAll] at hms
    cases hms
    exact ⟨rfl, fun i h1 _ => absurd h1 (Nat.not_lt_zero i)⟩
  | cons x xs ih =>
    intro ms hms
    simp only [decodeAll] at hms
    cases hfx : f x with
    | error e => rw [hfx] at hms; cases hms
    | ok a =>
      rw [hfx] at hms
      cases hrest : decodeAll f xs with
      | error e => rw [hrest] at hms; cases hms
      | ok rest =>
        rw [hrest] at hms
        cases hms
        obtain ⟨hlen, helem⟩ := ih rest hrest
        refine ⟨by simp [hlen], ?_⟩
        intro i h1 h2
        cases i with
        | zero => exact hfx
        | succ n =>
          exact helem n (Nat.lt_of_succ_lt_succ h1) (Nat.lt_of_succ_lt_succ h2)

/-- C1: for every decoded create response whose first method response is a
`MaskedEmail/set` result, `create_masked_email` returns the `MaskedEmail`
decoded from the `new` entry of the result's `created` section when that
entry is present (decode failures propagating as `Parse`); otherwise, when
a `notCreated` section is present it fails with the `Api` protocol error
carrying the rejection's Debug rendering; and when neither applies it
fails with the `Api` error with the `Unexpected response` detail. -/
theorem create_response_interpretation (jmap : JmapResponse) (result : Json) (cid : String)
    (h : jmap.method_responses.head? = some ("MaskedEmail/set", result, cid)) :
    (∀ new_email, (result.get "created").bind (fun created => created.get "new") = some new_email →
      create_interpret jmap = Except.mapError FastmailError.Parse (MaskedEmail.fromJson new_email))
    ∧ ((result.get "created").bind (fun created => created.get "new") = none →
      ∀ nc, result.get "notCreated" = some nc →
      create_interpret jmap = .error (.Api (Json.debugRepr nc)))
    ∧ ((result.get "created").bind (fun created => created.get "new") = none →
      result.get "notCreated" = none →
      create_interpret jmap = .error (.Api ("Unexpected response: " ++ jmap.debugRepr))) := by
  refine ⟨?_, ?_, ?_⟩
  · intro new_email hnew
    unfold create_interpret
    rw [h]
    dsimp only
    simp only [beq_self_eq_true, if_true]
    rw [hnew]
  · intro hnone nc hnc
    unfold create_interpret
    rw [h]
    dsimp only
    simp only [beq_self_eq_true, if_true]
    rw [hnone, hnc]
  · intro hnone hnc
    unfold create_interpret
    rw [h]
    dsimp only
    simp only [beq_self_eq_true, if_true]
    rw [hnone, hnc]

/-- C1 witness: the spec's example create response decodes to the expected
`MaskedEmail`. -/
theorem create_response_interpretation_witness :
    create_interpret sampleCreateResponse =
      .ok { id := some "abc", email := "xyz@mask.example", state := some "enabled",
            for_domain := none, description := none, created_at := none,
            last_message_at := none } :=
  ((create_response_interpretation sampleCreateResponse sampleCreateResult "0" rfl).1
    sampleCreatedNew rfl).trans rfl

/-- C2 counterexample: the claim says an absent address makes the lookup
fail with the taxonomy error `ResourceNotFound` carrying the address; in
the code (main.rs `delete`) the lookup outcome is the CLI not-found exit
carrying the address, and it is not any outcome carrying a
`FastmailError` — the `NotFound` variant declared in lib.rs is never
constructed.  The spec-worded model is shown alongside for contrast. -/
theorem cli_delete_not_found_bypasses_error_taxonomy :
    cliDelete (some "absent@x.com") (.ok sampleListing) alwaysOkArchive = .notFound "absent@x.com"
    ∧ cliDelete (some "absent@x.com") (.ok sampleListing) alwaysOkArchive ≠
        .listFailed (.NotFound "absent@x.com")
    ∧ cliDelete (some "absent@x.com") (.ok sampleListing) alwaysOkArchive ≠
        .archiveFailed (.NotFound "absent@x.com")
    ∧ findByAddress_specModel sampleListing "absent@x.com" = .error (.NotFound "absent@x.com") :=
  ⟨rfl, by decide, by decide, rfl⟩

/-- C2 (amended): for every address that matches no listed entry's `email`
field, the delete command's lookup finds nothing and the program reports
the not-found failure carrying exactly the queried address through the CLI
error exit (`Error: Masked email <address> not found.` then `exit(1)`), not
through a decode or protocol taxonomy error. -/
theorem cli_delete_absent_address_reports_queried_address
    (email : String) (emails : List MaskedEmail)
    (archiveResult : String → Except FastmailError Unit)
    (h : ∀ m ∈ emails, m.email ≠ email) :
    cliDelete (some email) (.ok emails) archiveResult = .notFound email := by
  unfold cliDelete
  dsimp only
  rw [List.find?_eq_none.mpr (fun m hm => by simp [h m hm])]

/-- C2 witness: the amended statement at a concrete listing and address. -/
theorem cli_delete_absent_address_reports_queried_address_witness :
    cliDelete (some "absent@x.com") (.ok sampleListing) alwaysOkArchive =
      .notFound "absent@x.com" :=
  cli_delete_absent_address_reports_queried_address "absent@x.com" sampleListing
    alwaysOkArchive (by decide)

/-- C3: for every operation (session discovery, create, list, archive,
destroy), a response with a non-2xx HTTP status makes the operation fail
with `Auth` (the authentication failure) carrying the literal numeric
status code and the response body — never the generic transport error
`Http`, which only a failed send produces. -/
theorem non_success_status_yields_auth_failure (status : Nat) (text : Option String)
    (json : Except String Json) (account_id id : String)
    (description for_domain : Option String)
    (h : statusIsSuccess status = false) :
    get_session (.resp status text json) = .error (.Auth status (bodyText text))
    ∧ (create_masked_email account_id description for_domain (.resp status text json)).2 =
        .error (.Auth status (bodyText text))
    ∧ (list_masked_emails account_id (.resp status text json)).2 =
        .error (.Auth status (bodyText text))
    ∧ (delete_masked_email account_id id (.resp status text json)).2 =
        .error (.Auth status (bodyText text))
    ∧ (destroy_masked_email account_id id (.resp status text json)).2 =
        .error (.Auth status (bodyText text)) := by
  have hr : ∀ {α : Type} (d : Json → Except String α),
      handleResponse d (.resp status text json) = .error (.Auth status (bodyText text)) := by
    intro α d
    unfold handleResponse
    dsimp only
    rw [h]
    rfl
  refine ⟨hr _, ?_, ?_, ?_, ?_⟩ <;>
    simp only [create_masked_email, list_masked_emails, delete_masked_email,
               destroy_masked_email, hr]

/-- C3 witness: a 401 with body `denied` surfaces as `Auth 401 "denied"`
on all five operations. -/
theorem non_success_status_yields_auth_failure_witness :
    get_session (.resp 401 (some "denied") (.error "not json")) =
      .error (.Auth 401 (bodyText (some "denied")))
    ∧ (create_masked_email "acc" none none (.resp 401 (some "denied") (.error "not json"))).2 =
        .error (.Auth 401 (bodyText (some "denied")))
    ∧ (list_masked_emails "acc" (.resp 401 (some "denied") (.error "not json"))).2 =
        .error (.Auth 401 (bodyText (some "denied")))
    ∧ (delete_masked_email "acc" "m1" (.resp 401 (some "denied") (.error "not json"))).2 =
        .error (.Auth 401 (bodyText (some "denied")))
    ∧ (destroy_masked_email "acc" "m1" (.resp 401 (some "denied") (.error "not json"))).2 =
        .error (.Auth 401 (bodyText (some "denied"))) :=
  non_success_status_yields_auth_failure 401 (some "denied") (.error "not json")
    "acc" "m1" none none rfl

/-- C4: for every create or update result that carries both a success
section and a failure section, the success outcome is returned.  The two
halves are independent: any create result with the `new` entry under
`created` alongside a `notCreated` section yields the decoded entity, and
any update result with the given ID under `updated` alongside a
`notUpdated` section yields success — each half assumes only its own two
sections, so a payload carrying just that pair is covered. -/
theorem success_sections_take_precedence (jmap : JmapResponse) (result : Json)
    (cid id : String)
    (h : jmap.method_responses.head? = some ("MaskedEmail/set", result, cid)) :
    (∀ new_email nc,
      (result.get "created").bind (fun created => created.get "new") = some new_email →
      result.get "notCreated" = some nc →
      create_interpret jmap = Except.mapError FastmailError.Parse (MaskedEmail.fromJson new_email))
    ∧ (∀ nu, ((result.get "updated").bind (fun u => u.get id)).isSome = true →
      result.get "notUpdated" = some nu →
      delete_interpret id jmap = .ok () ∧ destroy_interpret id jmap = .ok ()) := by
  refine ⟨?_, ?_⟩
  · intro new_email nc hnew _hnc
    unfold create_interpret
    rw [h]
    dsimp only
    simp only [beq_self_eq_true, if_true]
    rw [hnew]
  · intro nu hupd _hnu
    refine ⟨?_, ?_⟩
    · unfold delete_interpret
      rw [h]
      dsimp only
      simp only [beq_self_eq_true, if_true]
      simp only [hupd, if_true]
    · unfold destroy_interpret
      rw [h]
      dsimp only
      simp only [beq_self_eq_true, if_true]
      simp only [hupd, if_true]

/-- C4 witness: a create result carrying only `created.new` plus
`notCreated` yields the created entity, and an update result carrying only
`updated` plus `notUpdated` yields the successful update — the two
conflict payloads the claim is about, each with no extraneous section. -/
theorem success_sections_take_precedence_witness :
    create_interpret sampleCreateConflictResponse =
      .ok { id := none, email := "a@b.c", state := none, for_domain := none,
            description := none, created_at := none, last_message_at := none }
    ∧ delete_interpret "x1" sampleUpdateConflictResponse = .ok ()
    ∧ destroy_interpret "x1" sampleUpdateConflictResponse = .ok () := by
  refine ⟨?_, ?_, ?_⟩
  · exact ((success_sections_take_precedence sampleCreateConflictResponse
      sampleCreateConflictResult "0" "x1" rfl).1 (Json.obj [("email", Json.str "a@b.c")])
      (Json.obj []) rfl rfl).trans rfl
  · exact ((success_sections_take_precedence sampleUpdateConflictResponse
      sampleUpdateConflictResult "0" "x1" rfl).2 (Json.obj []) rfl rfl).1
  · exact ((success_sections_take_precedence sampleUpdateConflictResponse
      sampleUpdateConflictResult "0" "x1" rfl).2 (Json.obj []) rfl rfl).2

/-- C5: archive (`delete_masked_email`) sends the update call setting
`state = disabled` for the given ID; on a decoded `MaskedEmail/set`
response it succeeds exactly when the ID appears as a key of the `updated`
section (the associated value is never inspected — only `isSome` of the
lookup matters); when the ID is absent there, a present `notUpdated`
section is the `Api` protocol error carrying the rejection, and absence of
both is the `Api` error with the `Unexpected response` detail. -/
theorem archive_update_contract (account_id id : String) (out : HttpOutcome)
    (jmap : JmapResponse) (result : Json) (cid : String)
    (h : jmap.method_responses.head? = some ("MaskedEmail/set", result, cid)) :
    (delete_masked_email account_id id out).1 = set_state_request account_id id "disabled"
    ∧ (delete_interpret id jmap = .ok () ↔
        ((result.get "updated").bind (fun u => u.get id)).isSome = true)
    ∧ (((result.get "updated").bind (fun u => u.get id)) = none →
        ∀ nu, result.get "notUpdated" = some nu →
        delete_interpret id jmap = .error (.Api (Json.debugRepr nu)))
    ∧ (((result.get "updated").bind (fun u => u.get id)) = none →
        result.get "notUpdated" = none →
        delete_interpret id jmap = .error (.Api ("Unexpected response: " ++ jmap.debugRepr))) := by
  refine ⟨rfl, ?_, ?_, ?_⟩
  · unfold delete_interpret
    rw [h]
    dsimp only
    simp only [beq_self_eq_true, if_true]
    cases hc : ((result.get "updated").bind (fun u => u.get id)).isSome with
    | true => simp
    | false =>
      simp only [Bool.false_eq_true, if_false]
      cases hnu : result.get "notUpdated" <;> simp
  · intro hnone nu hnu
    unfold delete_interpret
    rw [h]
    dsimp only
    simp only [beq_self_eq_true, if_true]
    rw [hnone]
    simp only [Option.isSome_none, Bool.false_eq_true, if_false]
    rw [hnu]
  · intro hnone hnu
    unfold delete_interpret
    rw [h]
    dsimp only
    simp only [beq_self_eq_true, if_true]
    rw [hnone]
    simp only [Option.isSome_none, Bool.false_eq_true, if_false]
    rw [hnu]

/-- C5 witness: the archive request for ID `m1`, and success on a response
whose `updated` section holds `m1` with a `null` value. -/
theorem archive_update_contract_witness :
    (delete_masked_email "acc" "m1" (.sendErr "down")).1 = set_state_request "acc" "m1" "disabled"
    ∧ delete_interpret "m1" sampleUpdateResponse = .ok () :=
  ⟨(archive_update_contract "acc" "m1" (.sendErr "down") sampleUpdateResponse
      sampleUpdateResult "0" rfl).1,
   (archive_update_contract "acc" "m1" (.sendErr "down") sampleUpdateResponse
      sampleUpdateResult "0" rfl).2.1.mpr rfl⟩

/-- C6: destroy behaves identically to archive — the request differs only
in sending state `deleted` instead of `disabled`, the response
interpretation is the same function of the response, and the whole
operation result coincides on every HTTP outcome. -/
theorem destroy_identical_to_archive_except_state (account_id id : String)
    (out : HttpOutcome) (jmap : JmapResponse) :
    (destroy_masked_email account_id id out).1 = set_state_request account_id id "deleted"
    ∧ (delete_masked_email account_id id out).1 = set_state_request account_id id "disabled"
    ∧ destroy_interpret id jmap = delete_interpret id jmap
    ∧ (destroy_masked_email account_id id out).2 = (delete_masked_email account_id id out).2 := by
  have hint : ∀ (j : JmapResponse), destroy_interpret id j = delete_interpret id j := by
    intro j
    rfl
  refine ⟨rfl, rfl, hint jmap, ?_⟩
  unfold destroy_masked_email delete_masked_email
  dsimp only
  cases handleResponse JmapResponse.fromJson out with
  | error e => rfl
  | ok j => exact hint j

/-- C7: the minimal resource object with only an `email` field decodes
successfully with every optional field `None`. -/
theorem minimal_masked_email_decodes_with_all_optionals_none :
    MaskedEmail.fromJson (Json.obj [("email", Json.str "x@y.com")]) =
      .ok { id := none, email := "x@y.com", state := none, for_domain := none,
            description := none, created_at := none, last_message_at := none } := rfl

/-- C8: on a decoded `MaskedEmail/get` response with a `list` section,
list returns the decoded sequence verbatim — one output per array element,
in the remote order — and an empty `list` array yields the empty sequence,
not an error. -/
theorem list_decoded_verbatim (jmap : JmapResponse) (result l : Json) (cid : String)
    (xs : List Json) (ms : List MaskedEmail)
    (h : jmap.method_responses.head? = some ("MaskedEmail/get", result, cid))
    (hl : result.get "list" = some l) :
    list_interpret jmap = Except.mapError FastmailError.Parse (decodeMaskedEmails l)
    ∧ (l = Json.arr xs → decodeAll MaskedEmail.fromJson xs = .ok ms →
        list_interpret jmap = .ok ms ∧ ms.length = xs.length ∧
        ∀ (i : Nat) (h1 : i < xs.length) (h2 : i < ms.length),
          MaskedEmail.fromJson (xs.get ⟨i, h1⟩) = .ok (ms.get ⟨i, h2⟩))
    ∧ (l = Json.arr [] → list_interpret jmap = .ok []) := by
  have hmain : list_interpret jmap = Except.mapError FastmailError.Parse (decodeMaskedEmails l) := by
    unfold list_interpret
    rw [h]
    dsimp only
    simp only [beq_self_eq_true, if_true]
    rw [hl]
  refine ⟨hmain, ?_, ?_⟩
  · rintro rfl hdec
    obtain ⟨hlen, helem⟩ := decodeAll_ok_spec MaskedEmail.fromJson xs ms hdec
    refine ⟨?_, hlen, helem⟩
    rw [hmain]
    simp [decodeMaskedEmails, hdec, Except.mapError]
  · rintro rfl
    rw [hmain]
    rfl

/-- C8 witness: the spec's example — a response whose `list` section is
the empty array yields the empty sequence. -/
theorem list_decoded_verbatim_witness :
    list_interpret sampleListResponse = .ok [] :=
  (list_decoded_verbatim sampleListResponse sampleListResult (Json.arr []) "0" [] []
    rfl rfl).2.2 rfl

/-- C9: every request envelope built by create, list, archive and destroy
carries both the core and the masked-email capability URIs in `using`, and
its call IDs are unique within the batch (each batch is a single call with
ID `0`). -/
theorem request_envelope_capabilities_and_call_ids (account_id id : String)
    (description for_domain : Option String) (out : HttpOutcome) :
    (JMAP_CORE_CAPABILITY ∈ (create_masked_email account_id description for_domain out).1.usingCaps
      ∧ MASKED_EMAIL_CAPABILITY ∈ (create_masked_email account_id description for_domain out).1.usingCaps
      ∧ ((create_masked_email account_id description for_domain out).1.method_calls.map (fun c => c.2.2)).Nodup)
    ∧ (JMAP_CORE_CAPABILITY ∈ (list_masked_emails account_id out).1.usingCaps
      ∧ MASKED_EMAIL_CAPABILITY ∈ (list_masked_emails account_id out).1.usingCaps
      ∧ ((list_masked_emails account_id out).1.method_calls.map (fun c => c.2.2)).Nodup)
    ∧ (JMAP_CORE_CAPABILITY ∈ (delete_masked_email account_id id out).1.usingCaps
      ∧ MASKED_EMAIL_CAPABILITY ∈ (delete_masked_email account_id id out).1.usingCaps
      ∧ ((delete_masked_email account_id id out).1.method_calls.map (fun c => c.2.2)).Nodup)
    ∧ (JMAP_CORE_CAPABILITY ∈ (destroy_masked_email account_id id out).1.usingCaps
      ∧ MASKED_EMAIL_CAPABILITY ∈ (destroy_masked_email account_id id out).1.usingCaps
      ∧ ((destroy_masked_email account_id id out).1.method_calls.map (fun c => c.2.2)).Nodup) := by
  refine ⟨⟨?_, ?_, ?_⟩, ⟨?_, ?_, ?_⟩, ⟨?_, ?_, ?_⟩, ⟨?_, ?_, ?_⟩⟩ <;>
    simp [create_masked_email, create_request, list_masked_emails, list_request,
          delete_masked_email, delete_request, destroy_masked_email, destroy_request]

/-- C10: the create payload always carries the `description` and
`forDomain` keys under `create.new`, bound to the empty string when the
caller passed no value — so an absent optional argument builds exactly the
same request as an explicitly empty one. -/
theorem create_optional_args_default_to_empty_string_on_wire (account_id : String)
    (description for_domain : Option String) (out : HttpOutcome) :
    ((create_masked_email account_id description for_domain out).1.method_calls.map
        (fun c => (((c.2.1.get "create").bind (fun cr => cr.get "new")).bind (fun n => n.get "description"),
                   ((c.2.1.get "create").bind (fun cr => cr.get "new")).bind (fun n => n.get "forDomain"))))
      = [(some (.str (description.getD "")), some (.str (for_domain.getD "")))]
    ∧ (create_masked_email account_id none for_domain out).1 =
        (create_masked_email account_id (some "") for_domain out).1
    ∧ (create_masked_email account_id description none out).1 =
        (create_masked_email account_id description (some "") out).1 :=
  ⟨rfl, rfl, rfl⟩

end Tmail
